import Mathlib

/-!
# Contact Submission Handler — verification development

Shallow embedding of the Express backend of the portfolio repository
(backend/server.js): configuration truthiness, transport selection,
express-rate-limit middleware (global `/api/` limiter and the stricter
contact limiter), the express-validator chain on the contact route, the two
HTML e-mail templates, and the `POST /api/contact` handler with its
send-dispatch and error containment, together with theorems settling the
frozen claims about this code.

Machine conventions: environment variables are `Option String` (unset =
`none`); JavaScript truthiness of an env var is "set and non-empty".  Time
is in milliseconds as `Nat`.  The external mail transports (nodemailer SMTP
and the Resend HTTP API) are modelled by outcome oracles: the handler takes
the outcome each send would have (`none` = delivers, `some e` = throws with
message `e`) and records the send attempts it performs.  Clock reads
(`new Date().toLocaleString(...)`) are modelled as string parameters, one
per template, since their value is whatever the clock yields at render time.
-/

/-- Process environment slice read by the backend. -/
structure Env where
  emailHost : Option String
  emailUser : Option String
  emailPassword : Option String
  resendApiKey : Option String
  emailTo : Option String
  notificationEmail : Option String
deriving DecidableEq, Repr

/-- JavaScript truthiness of an environment variable: set and non-empty
(`!!process.env.X`). -/
def truthy : Option String → Bool
  | none => false
  | some s => !s.isEmpty

/-- Source flag `usingSMTP = !!EMAIL_HOST && !!EMAIL_USER && !!EMAIL_PASSWORD`. -/
def usingSMTP (env : Env) : Bool :=
  truthy env.emailHost && truthy env.emailUser && truthy env.emailPassword

/-- JavaScript `a || b` on an env var against a default string: the default
is taken when the variable is unset or empty (falsy). -/
def orDefault (v : Option String) (d : String) : String :=
  match v with
  | some s => if s.isEmpty then d else s
  | none => d

/-- Source expression `process.env.EMAIL_TO || process.env.NOTIFICATION_EMAIL
|| <owner gmail default>` — where the admin notification is sent. -/
def notificationAddr (env : Env) : String :=
  orDefault env.emailTo (orDefault env.notificationEmail "subash.93450@gmail.com")

/-- The three transport modes of the send dispatch. -/
inductive TransportMode where
  | SMTP
  | THIRD_PARTY
  | NONE
deriving DecidableEq, Repr

/-- Transport selection: the handler first tests `usingSMTP`, else whether a
Resend API key is configured (`process.env.RESEND_API_KEY`), else sends
nothing. -/
def transportMode (env : Env) : TransportMode :=
  if usingSMTP env then TransportMode.SMTP
  else if truthy env.resendApiKey then TransportMode.THIRD_PARTY
  else TransportMode.NONE

/-- Raw request body fields of `POST /api/contact` (a missing field is
modelled as the empty string, which the length validators reject exactly
like express-validator does after its sanitizers coerce `undefined`). -/
structure RawBody where
  name : String
  email : String
  subject : String
  message : String
deriving DecidableEq, Repr

/-- A validated submission as the handler destructures it from the sanitized
body: name, subject and message trimmed, email normalized. -/
structure Submission where
  name : String
  email : String
  subject : String
  message : String
deriving DecidableEq, Repr

/-- Whitespace for JavaScript `trim()` (the common ASCII cases). -/
def isSpaceChar (c : Char) : Bool :=
  decide (c = ' ' ∨ c = '\t' ∨ c = '\n' ∨ c = '\r')

/-- JavaScript `String.prototype.trim`: strip leading and trailing
whitespace. -/
def jsTrim (s : String) : String :=
  String.mk (((s.data.dropWhile isSpaceChar).reverse.dropWhile isSpaceChar).reverse)

/-- Models validator.js `isEmail` as used by the route: exactly one `@`
separating a non-empty local part from a non-empty domain that contains a
dot, with no whitespace anywhere (validator.js rejects surrounding and
embedded whitespace; its finer syntax rules are abstracted). -/
def isEmail (s : String) : Bool :=
  let l := s.data
  let localPart := l.takeWhile (fun c => c ≠ '@')
  let domain := (l.dropWhile (fun c => c ≠ '@')).drop 1
  decide (l.count '@' = 1) && !localPart.isEmpty && !domain.isEmpty &&
    domain.contains '.' && l.all (fun c => !isSpaceChar c)

/-- Models validator.js `normalizeEmail` with its default `all_lowercase`
option: the accepted address is lowercased (provider-specific
canonicalization is abstracted away). -/
def normalizeEmail (s : String) : String := s.toLower

/-- One element of the `errors.array()` payload: the field path and the
`withMessage` text. -/
structure FieldError where
  field : String
  msg : String
deriving DecidableEq, Repr

def nameOk (s : String) : Bool :=
  decide (2 ≤ (jsTrim s).length ∧ (jsTrim s).length ≤ 50)

def subjectOk (s : String) : Bool :=
  decide (2 ≤ (jsTrim s).length ∧ (jsTrim s).length ≤ 100)

def messageOk (s : String) : Bool :=
  decide (5 ≤ (jsTrim s).length ∧ (jsTrim s).length ≤ 1000)

/-- The express-validator chain of the contact route, in source order:
`name` trimmed then length 2–50, `email` isEmail (no trim in its chain),
`subject` trimmed then length 2–100, `message` trimmed then length 5–1000.
The `withMessage` strings are verbatim from the source, including its
documented-bounds mismatches on subject and message. -/
def validateBody (b : RawBody) : List FieldError :=
  (if nameOk b.name then [] else
    [⟨"name", "Name must be between 2 and 50 characters"⟩]) ++
  (if isEmail b.email then [] else
    [⟨"email", "Please provide a valid email address"⟩]) ++
  (if subjectOk b.subject then [] else
    [⟨"subject", "Subject must be between 5 and 100 characters"⟩]) ++
  (if messageOk b.message then [] else
    [⟨"message", "Message must be between 10 and 1000 characters"⟩])

/-- The body fields as the handler sees them after the sanitizers ran:
`.trim()` applied to name, subject and message, `.normalizeEmail()` to
email. -/
def mkSubmission (b : RawBody) : Submission :=
  ⟨jsTrim b.name, normalizeEmail b.email, jsTrim b.subject, jsTrim b.message⟩

/-- Source expression message.replace of every newline by the br tag, over
the characters: each newline becomes the line-break tag, every other
character is kept unchanged. -/
def nlToBrList : List Char → String
  | [] => ""
  | c :: cs => (if c = '\n' then "<br>" else String.singleton c) ++ nlToBrList cs

def nlToBr (m : String) : String := nlToBrList m.data
def mainChunk0 : String :=
  "\n        <!DOCTYPE html>\n        <html lang=\"en\">\n        <head>\n          <meta charset=\"UTF-8\">\n          <meta name=\"viewport\" content=\"width=device-width, initial-scale=1.0\">\n          <title>New Contact Form Submission</title>\n          <style>\n            @import url(\x27https://fonts.googleapis.com/css2?family=Inter:wght@300;400;500;600;700&family=Space+Grotesk:wght@500;600;700&display=swap\x27);\n            body \x7b margin: 0; padding: 0; font-family: \x27Inter\x27, -apple-system, BlinkMacSystemFont, \x27Segoe UI\x27, Roboto, sans-serif; background-color: #030014; color: #e4e4e7; \x7d\n            .wrapper \x7b background-color: #030014; padding: 30px 15px; \x7d\n            .container \x7b max-width: 700px; margin: 0 auto; background-color: #0a0a1a; border: 1px solid rgba(255,255,255,0.06); border-radius: 16px; overflow: hidden; \x7d\n            .header \x7b background: linear-gradient(135deg, #00d4ff 0%, #a855f7 50%, #ff2d55 100%); padding: 40px 30px; text-align: center; color: white; position: relative; \x7d\n            .header::after \x7b content: \x27\x27; position: absolute; bottom: 0; left: 0; right: 0; height: 30px; background: linear-gradient(to bottom, transparent, #0a0a1a); \x7d\n            .header-badge \x7b display: inline-block; background: rgba(0,0,0,0.25); border: 1px solid rgba(255,255,255,0.2); border-radius: 20px; padding: 4px 14px; font-size: 11px; font-weight: 500; color: rgba(255,255,255,0.9); letter-spacing: 1.5px; text-transform: uppercase; margin-bottom: 14px; \x7d\n            .header h2 \x7b margin: 0; font-family: \x27Space Grotesk\x27, \x27Inter\x27, sans-serif; font-size: 24px; font-weight: 700; color: #ffffff; letter-spacing: -0.5px; \x7d\n            .header p \x7b margin: 8px 0 0 0; font-size: 14px; color: rgba(255,255,255,0.9); font-weight: 300; \x7d\n            .content \x7b padding: 30px; \x7d\n            .glass-card \x7b background-color: rgba(255,255,255,0.03); border: 1px solid rgba(255,255,255,0.08); border-radius: 12px; padding: 22px; margin: 18px 0; \x7d\n            .contact-info \x7b border-left: 3px solid #00d4ff; \x7d\n            .contact-info h3 \x7b margin: 0 0 15px 0; font-family: \x27Space Grotesk\x27, \x27Inter\x27, sans-serif; color: #00d4ff; font-size: 16px; font-weight: 600; letter-spacing: 0.5px; \x7d\n            .contact-info p \x7b margin: 8px 0; color: rgba(255,255,255,0.8); font-size: 14px; \x7d\n            .contact-info strong \x7b color: #ffffff; font-weight: 500; \x7d\n            .contact-info a \x7b color: #00d4ff; text-decoration: none; \x7d\n            .message-section \x7b border-left: 3px solid #a855f7; \x7d\n            .message-section h3 \x7b margin: 0 0 15px 0; font-family: \x27Space Grotesk\x27, \x27Inter\x27, sans-serif; color: #a855f7; font-size: 15px; font-weight: 600; letter-spacing: 0.5px; \x7d\n            .message-text \x7b color: rgba(255,255,255,0.8); line-height: 1.7; white-space: pre-wrap; word-wrap: break-word; font-size: 14px; \x7d\n            .timestamp \x7b border-left: 3px solid #00ffa3; \x7d\n            .timestamp p \x7b margin: 0; color: rgba(255,255,255,0.75); font-size: 13px; text-align: center; \x7d\n            .timestamp strong \x7b color: #00ffa3; \x7d\n            .footer \x7b background-color: rgba(255,255,255,0.02); border-top: 1px solid rgba(255,255,255,0.06); padding: 24px 30px; text-align: center; \x7d\n            .footer p \x7b margin: 0; color: rgba(255,255,255,0.45); font-size: 12px; \x7d\n          </style>\n        </head>\n        <body>\n          <div class=\"wrapper\">\n          <div class=\"container\">\n            <div class=\"header\">\n              <div class=\"header-badge\">&#9889; New Message</div>\n              <h2>New Contact Form Submission</h2>\n              <p>You have received a new message from your portfolio website</p>\n            </div>\n            <div class=\"content\">\n              <div class=\"glass-card contact-info\">\n                <h3>&#9670; Contact Information</h3>\n                <p><strong>Name:</strong> "

def mainChunk1 : String :=
  "</p>\n                <p><strong>Email:</strong> <a href=\"mailto:"

def mainChunk2 : String :=
  "\">"

def mainChunk3 : String :=
  "</a></p>\n                <p><strong>Subject:</strong> "

def mainChunk4 : String :=
  "</p>\n              </div>\n              <div class=\"glass-card message-section\">\n                <h3>&#9670; Message</h3>\n                <div class=\"message-text\">"

def mainChunk5 : String :=
  "</div>\n              </div>\n              <div class=\"glass-card timestamp\">\n                <p><strong>Received:</strong> "

def mainChunk6 : String :=
  "</p>\n              </div>\n            </div>\n            <div class=\"footer\">\n              <p>This notification was sent from your portfolio contact form.</p>\n            </div>\n          </div>\n          </div>\n        </body>\n        </html>\n      "

/-- The admin-notification HTML template built in the contact handler (template
literal interpolating name, email, subject, the message with newlines replaced by
br tags, and the formatted timestamp, which is passed in as ts). -/
def mainEmailHtml (s : Submission) (ts : String) : String :=
  mainChunk0 ++ s.name ++ mainChunk1 ++ s.email ++ mainChunk2 ++ s.email ++ mainChunk3 ++ s.subject ++ mainChunk4 ++ (nlToBr s.message) ++ mainChunk5 ++ ts ++ mainChunk6

def autoChunk0 : String :=
  "\n        <!DOCTYPE html>\n        <html lang=\"en\">\n        <head>\n          <meta charset=\"UTF-8\">\n          <meta name=\"viewport\" content=\"width=device-width, initial-scale=1.0\">\n          <title>Thank you for contacting Subash</title>\n          <style>\n            @import url(\x27https://fonts.googleapis.com/css2?family=Inter:wght@300;400;500;600;700&family=Space+Grotesk:wght@500;600;700&display=swap\x27);\n            body \x7b margin: 0; padding: 0; font-family: \x27Inter\x27, -apple-system, BlinkMacSystemFont, \x27Segoe UI\x27, Roboto, sans-serif; background-color: #030014; color: #e4e4e7; \x7d\n            .wrapper \x7b background-color: #030014; padding: 30px 15px; \x7d\n            .container \x7b max-width: 600px; margin: 0 auto; background-color: #0a0a1a; border: 1px solid rgba(255,255,255,0.06); border-radius: 16px; overflow: hidden; \x7d\n            .header \x7b background: linear-gradient(135deg, #00d4ff 0%, #a855f7 50%, #ff2d55 100%); padding: 50px 30px; text-align: center; position: relative; \x7d\n            .header::after \x7b content: \x27\x27; position: absolute; bottom: 0; left: 0; right: 0; height: 40px; background: linear-gradient(to bottom, transparent, #0a0a1a); \x7d\n            .header-badge \x7b display: inline-block; background: rgba(0,0,0,0.25); border: 1px solid rgba(255,255,255,0.2); border-radius: 20px; padding: 4px 14px; font-size: 11px; font-weight: 500; color: rgba(255,255,255,0.9); letter-spacing: 1.5px; text-transform: uppercase; margin-bottom: 16px; \x7d\n            .header h1 \x7b margin: 0; font-family: \x27Space Grotesk\x27, \x27Inter\x27, sans-serif; font-size: 28px; font-weight: 700; color: #ffffff; letter-spacing: -0.5px; \x7d\n            .header p \x7b margin: 12px 0 0 0; font-size: 15px; color: rgba(255,255,255,0.9); font-weight: 300; \x7d\n            .content \x7b padding: 40px 30px; \x7d\n            .glass-card \x7b background-color: rgba(255,255,255,0.03); border: 1px solid rgba(255,255,255,0.08); border-radius: 12px; padding: 22px; margin: 18px 0; \x7d\n            .glass-card h3, .glass-card h4 \x7b margin: 0 0 12px 0; font-family: \x27Space Grotesk\x27, \x27Inter\x27, sans-serif; font-weight: 600; \x7d\n            .message-summary \x7b border-left: 3px solid #00d4ff; \x7d\n            .message-summary h3 \x7b color: #00d4ff; font-size: 16px; letter-spacing: 0.5px; \x7d\n            .message-summary p \x7b margin: 6px 0; color: rgba(255,255,255,0.8); font-size: 14px; \x7d\n            .message-summary strong \x7b color: #ffffff; font-weight: 500; \x7d\n            .message-content \x7b border-left: 3px solid #a855f7; \x7d\n            .message-content h4 \x7b color: #a855f7; font-size: 15px; letter-spacing: 0.5px; \x7d\n            .message-text \x7b color: rgba(255,255,255,0.8); line-height: 1.7; white-space: pre-line; font-size: 14px; \x7d\n            .response-info \x7b border-left: 3px solid #00ffa3; \x7d\n            .response-info h4 \x7b color: #00ffa3; font-size: 15px; \x7d\n            .response-info p \x7b margin: 0; color: rgba(255,255,255,0.75); line-height: 1.6; font-size: 14px; \x7d\n            .connect-section \x7b text-align: center; margin: 28px 0 10px 0; \x7d\n            .connect-section h4 \x7b color: #e4e4e7; font-family: \x27Space Grotesk\x27, \x27Inter\x27, sans-serif; font-size: 16px; font-weight: 600; margin: 0 0 6px 0; \x7d\n            .connect-section p \x7b color: rgba(255,255,255,0.65); font-size: 13px; margin: 0 0 18px 0; \x7d\n            .connect-links a \x7b display: inline-block; margin: 5px 6px; padding: 10px 22px; border-radius: 8px; font-size: 13px; font-weight: 500; text-decoration: none; letter-spacing: 0.3px; \x7d\n            .btn-cyan \x7b background: rgba(0,212,255,0.12); border: 1px solid rgba(0,212,255,0.3); color: #00d4ff; \x7d\n            .btn-purple \x7b background: rgba(168,85,247,0.12); border: 1px solid rgba(168,85,247,0.3); color: #a855f7; \x7d\n            .btn-green \x7b background: rgba(0,255,163,0.12); border: 1px solid rgba(0,255,163,0.3); color: #00ffa3; \x7d\n            .divider \x7b border: none; border-top: 1px solid rgba(255,255,255,0.06); margin: 28px 0; \x7d\n            .closing-text \x7b color: rgba(255,255,255,0.7); text-align: center; margin: 20px 0 0 0; font-size: 14px; font-weight: 300; \x7d\n            .footer \x7b background-color: rgba(255,255,255,0.02); border-top: 1px solid rgba(255,255,255,0.06); padding: 32px 30px; text-align: center; \x7d\n            .footer-name \x7b margin: 0 0 4px 0; font-family: \x27Space Grotesk\x27, \x27Inter\x27, sans-serif; font-size: 18px; font-weight: 700; background: linear-gradient(135deg, #00d4ff, #a855f7); -webkit-background-clip: text; -webkit-text-fill-color: transparent; background-clip: text; \x7d\n            .footer-title \x7b margin: 0 0 4px 0; color: rgba(255,255,255,0.7); font-size: 13px; font-weight: 400; \x7d\n            .footer-org \x7b margin: 0; color: rgba(255,255,255,0.55); font-size: 12px; \x7d\n            .footer-links \x7b margin: 18px 0; \x7d\n            .footer-links a \x7b display: inline-block; margin: 0 10px; color: #00d4ff; text-decoration: none; font-size: 13px; font-weight: 500; \x7d\n            .footer-links .sep \x7b color: rgba(255,255,255,0.3); \x7d\n            .footer-note \x7b font-size: 11px; margin-top: 18px; color: rgba(255,255,255,0.45); \x7d\n          </style>\n        </head>\n        <body>\n          <div class=\"wrapper\">\n          <div class=\"container\">\n            <!-- Header -->\n            <div class=\"header\">\n              <div class=\"header-badge\">&#9889; Transmission Received</div>\n              <h1>Thank You for Reaching Out!</h1>\n              <p>Your message has been received. I appreciate you taking the time to connect.</p>\n            </div>\n\n            <!-- Content -->\n            <div class=\"content\">\n              <div class=\"glass-card message-summary\">\n                <h3>&#9670; Message Summary</h3>\n                <p><strong>Subject:</strong> "

def autoChunk1 : String :=
  "</p>\n                <p><strong>Received:</strong> "

def autoChunk2 : String :=
  "</p>\n              </div>\n\n              <div class=\"glass-card message-content\">\n                <h4>&#9670; Your Message</h4>\n                <div class=\"message-text\">"

def autoChunk3 : String :=
  "</div>\n              </div>\n\n              <div class=\"glass-card response-info\">\n                <h4>&#9670; Response Time</h4>\n                <p>I typically respond to all messages within 24-48 hours. For urgent inquiries, feel free to follow up on this email.</p>\n              </div>\n\n              <hr class=\"divider\">\n\n              <div class=\"connect-section\">\n                <h4>Alternative Ways to Connect</h4>\n                <p>While you wait, you can also reach me through:</p>\n                <div class=\"connect-links\">\n                  <a href=\"https://www.linkedin.com/in/subash-s-514aa9373\" target=\"_blank\" class=\"btn-cyan\">LinkedIn</a>\n                  <a href=\"https://github.com/Subash-S-66\" target=\"_blank\" class=\"btn-purple\">GitHub</a>\n                  <a href=\"mailto:"

def autoChunk4 : String :=
  "\" class=\"btn-green\">Email</a>\n                </div>\n              </div>\n\n              <p class=\"closing-text\">Looking forward to connecting with you soon!</p>\n            </div>\n\n            <!-- Footer -->\n            <div class=\"footer\">\n              <h5 class=\"footer-name\">Subash S</h5>\n              <p class=\"footer-title\">Full Stack Developer &bull; B.Tech Computer Science</p>\n              <p class=\"footer-org\">Dr. M.G.R. Educational and Research Institute, Chennai</p>\n              <div class=\"footer-links\">\n                <a href=\"https://github.com/Subash-S-66\" target=\"_blank\">GitHub</a>\n                <span class=\"sep\">&#8226;</span>\n                <a href=\"https://www.linkedin.com/in/subash-s-514aa9373\" target=\"_blank\">LinkedIn</a>\n                <span class=\"sep\">&#8226;</span>\n                <a href=\"mailto:"

def autoChunk5 : String :=
  "\">Email</a>\n              </div>\n              <p class=\"footer-note\">This is an automated response. Please do not reply to this email directly.</p>\n            </div>\n          </div>\n          </div>\n        </body>\n        </html>\n      "

/-- The sender-acknowledgment (auto-reply) HTML template built in the contact
handler; notifyTo is the configured notification address interpolated into the
two mailto links, ts the formatted timestamp. -/
def autoReplyHtml (s : Submission) (notifyTo ts : String) : String :=
  autoChunk0 ++ s.subject ++ autoChunk1 ++ ts ++ autoChunk2 ++ (nlToBr s.message) ++ autoChunk3 ++ notifyTo ++ autoChunk4 ++ notifyTo ++ autoChunk5

/-- Which send helper a dispatch goes through: `sendEmailWithSMTP`
(nodemailer) or `sendEmailWithResend` (third-party HTTPS API). -/
inductive Transport where
  | smtp
  | resendApi
deriving DecidableEq, Repr

/-- Which of the two e-mails a send attempt carries. -/
inductive SendKind where
  | notification
  | acknowledgment
deriving DecidableEq, Repr

/-- One outbound send attempt with the arguments the handler passes to the
send helper: `(to, subject, html, replyTo)`. -/
structure SendCall where
  transport : Transport
  kind : SendKind
  toAddr : String
  subject : String
  html : String
  replyTo : Option String
deriving DecidableEq, Repr

/-- Subject line of the admin notification, interpolating the submission
subject. -/
def notificationSubject (s : Submission) : String :=
  "Portfolio Contact: " ++ s.subject

/-- Subject line of the acknowledgment, interpolating the submission
subject. -/
def acknowledgmentSubject (s : Submission) : String :=
  "Thank you for contacting me - " ++ s.subject

/-- A response the contact pipeline can produce: either the plain-text 429
body express-rate-limit sends, or a JSON body with its HTTP status,
`success` flag, `message`, and (for 400) the `errors` array. -/
inductive HttpResponse where
  | rateLimited (message : String)
  | json (status : Nat) (success : Bool) (message : String) (errors : List FieldError)
deriving DecidableEq, Repr

/-- Success body the handler sends: success true with the fixed message. -/
def successResponse : HttpResponse :=
  HttpResponse.json 200 true "Message received! I\x27ll get back to you soon." []

/-- Failure body sent by the outer catch: status 500, success false, and a
fixed literal message carrying nothing from the thrown error. -/
def failureResponse : HttpResponse :=
  HttpResponse.json 500 false "Failed to send message. Please try again later." []

/-- The `POST /api/contact` handler body (after both rate limiters), for a
request whose sanitized body is `b`.  `tsMain` and `tsAck` are the two
formatted clock reads; `notifErr`/`ackErr` are the outcomes the external
transport would give the notification and acknowledgment sends (`some e` =
the send throws with message `e`).  Returns the response and the list of
send attempts, in order.  The outer try/catch maps a throwing notification
send to `failureResponse`; the inner try/catch around the SMTP
acknowledgment swallows its error, so the result never depends on
`ackErr`. -/
def contactHandler (env : Env) (b : RawBody) (tsMain tsAck : String)
    (notifErr _ackErr : Option String) : HttpResponse × List SendCall :=
  let errs := validateBody b
  if errs = [] then
    let s := mkSubmission b
    let notifyTo := notificationAddr env
    let mainHtml := mainEmailHtml s tsMain
    let ackHtml := autoReplyHtml s notifyTo tsAck
    if usingSMTP env then
      let notifCall : SendCall :=
        ⟨Transport.smtp, SendKind.notification, notifyTo, notificationSubject s,
          mainHtml, some s.email⟩
      match notifErr with
      | some _ => (failureResponse, [notifCall])
      | none =>
          let ackCall : SendCall :=
            ⟨Transport.smtp, SendKind.acknowledgment, s.email, acknowledgmentSubject s,
              ackHtml, some notifyTo⟩
          (successResponse, [notifCall, ackCall])
    else if truthy env.resendApiKey then
      let notifCall : SendCall :=
        ⟨Transport.resendApi, SendKind.notification, notifyTo, notificationSubject s,
          mainHtml, some s.email⟩
      match notifErr with
      | some _ => (failureResponse, [notifCall])
      | none => (successResponse, [notifCall])
    else
      (successResponse, [])
  else
    (HttpResponse.json 400 false "Validation failed" errs, [])

/-- Window length of 15 minutes in milliseconds, shared by both limiters. -/
def windowMs : Nat := 15 * 60 * 1000

/-- Per-key bucket of an express-rate-limit memory store: hits so far in the
current window and the window start time (ms). -/
structure LimiterState where
  count : Nat
  windowStart : Nat
deriving DecidableEq, Repr

/-- One express-rate-limit hit for a key: reset the bucket if its window
elapsed, count this request, and report whether it is within `maxHits`
(a request is allowed iff its own hit number is at most `max`). -/
def hitLimiter (maxHits : Nat) (st : Option LimiterState) (now : Nat) :
    LimiterState × Bool :=
  let base :=
    match st with
    | none => { count := 0, windowStart := now : LimiterState }
    | some s =>
        if s.windowStart + windowMs ≤ now then
          { count := 0, windowStart := now : LimiterState }
        else s
  let upd : LimiterState := { base with count := base.count + 1 }
  (upd, decide (upd.count ≤ maxHits))

/-- The two limiter buckets of one client key: the broad `/api/` limiter
(`max: 100`) and the contact limiter (`max: 5`). -/
structure ClientState where
  api : Option LimiterState
  contact : Option LimiterState
deriving DecidableEq, Repr

/-- The 429 body of the broad limiter. -/
def apiLimitMsg : String :=
  "Too many requests from this IP, please try again later."

/-- The 429 body of the contact limiter. -/
def contactLimitMsg : String :=
  "Too many contact form submissions, please try again later."

/-- Any request to an `/api/` route other than the contact form for this
key: it passes only through the broad limiter mounted on all API routes.
Returns the new state and whether the request was allowed through. -/
def processOtherApi (st : ClientState) (now : Nat) : ClientState × Bool :=
  let a := hitLimiter 100 st.api now
  ({ st with api := some a.1 }, a.2)

/-- The full middleware pipeline of `POST /api/contact` for one client key:
the broad `/api/` limiter, then `contactLimiter`, then the validator chain
and handler.  Both limiters count the request before validation runs; a
limiter rejection responds 429 with its plain-text message and nothing else
executes. -/
def processContact (env : Env) (st : ClientState) (now : Nat) (b : RawBody)
    (tsMain tsAck : String) (notifErr ackErr : Option String) :
    ClientState × HttpResponse × List SendCall :=
  let a := hitLimiter 100 st.api now
  let st1 : ClientState := { st with api := some a.1 }
  if a.2 then
    let c := hitLimiter 5 st.contact now
    let st2 : ClientState := { st1 with contact := some c.1 }
    if c.2 then
      let r := contactHandler env b tsMain tsAck notifErr ackErr
      (st2, r.1, r.2)
    else
      (st2, HttpResponse.rateLimited contactLimitMsg, [])
  else
    (st1, HttpResponse.rateLimited apiLimitMsg, [])

/-! ## Helper lemmas -/

/-- Property that `x` occurs verbatim (as a contiguous substring) in `h`. -/
def AppearsIn (x h : String) : Prop := ∃ u v, h = u ++ x ++ v

lemma appearsIn_tail (u x : String) : AppearsIn x (u ++ x) :=
  ⟨u, "", by simp⟩

lemma appearsIn_append_right (x s t : String) (h : AppearsIn x s) :
    AppearsIn x (s ++ t) := by
  obtain ⟨u, v, rfl⟩ := h
  exact ⟨u, v ++ t, by rw [String.append_assoc (u ++ x) v t]⟩

/-- The notification template is the verbatim concatenation of its static
chunks with the raw field values (no escaping function is applied). -/
lemma mainEmailHtml_decomp (s : Submission) (ts : String) :
    mainEmailHtml s ts =
      mainChunk0 ++ s.name ++ mainChunk1 ++ s.email ++ mainChunk2 ++ s.email ++
        mainChunk3 ++ s.subject ++ mainChunk4 ++ nlToBr s.message ++ mainChunk5 ++
        ts ++ mainChunk6 := rfl

/-- The acknowledgment template is the verbatim concatenation of its static
chunks with the raw field values (no escaping function is applied). -/
lemma autoReplyHtml_decomp (s : Submission) (notifyTo ts : String) :
    autoReplyHtml s notifyTo ts =
      autoChunk0 ++ s.subject ++ autoChunk1 ++ ts ++ autoChunk2 ++
        nlToBr s.message ++ autoChunk3 ++ notifyTo ++ autoChunk4 ++ notifyTo ++
        autoChunk5 := rfl

lemma appears_name (s : Submission) (ts : String) :
    AppearsIn s.name (mainEmailHtml s ts) := by
  rw [mainEmailHtml_decomp]
  exact appearsIn_append_right _ _ _ (appearsIn_append_right _ _ _
    (appearsIn_append_right _ _ _ (appearsIn_append_right _ _ _
    (appearsIn_append_right _ _ _ (appearsIn_append_right _ _ _
    (appearsIn_append_right _ _ _ (appearsIn_append_right _ _ _
    (appearsIn_append_right _ _ _ (appearsIn_append_right _ _ _
    (appearsIn_append_right _ _ _ (appearsIn_tail _ _)))))))))))

lemma appears_message (s : Submission) (ts : String) :
    AppearsIn (nlToBr s.message) (mainEmailHtml s ts) := by
  rw [mainEmailHtml_decomp]
  exact appearsIn_append_right _ _ _ (appearsIn_append_right _ _ _
    (appearsIn_append_right _ _ _ (appearsIn_tail _ _)))

lemma autoReply_appears_message (s : Submission) (notifyTo ts : String) :
    AppearsIn (nlToBr s.message) (autoReplyHtml s notifyTo ts) := by
  rw [autoReplyHtml_decomp]
  exact appearsIn_append_right _ _ _ (appearsIn_append_right _ _ _
    (appearsIn_append_right _ _ _ (appearsIn_append_right _ _ _
    (appearsIn_append_right _ _ _ (appearsIn_tail _ _)))))

lemma nlToBrList_append (l₁ l₂ : List Char) :
    nlToBrList (l₁ ++ l₂) = nlToBrList l₁ ++ nlToBrList l₂ := by
  induction l₁ with
  | nil => simp [nlToBrList]
  | cons c cs ih => simp [nlToBrList, ih, String.append_assoc]

lemma nlToBr_append (a b : String) : nlToBr (a ++ b) = nlToBr a ++ nlToBr b := by
  simp [nlToBr, String.data_append, nlToBrList_append]

lemma nlToBr_newline_split (a b : String) :
    nlToBr (a ++ "\n" ++ b) = nlToBr a ++ "<br>" ++ nlToBr b := by
  rw [nlToBr_append, nlToBr_append]
  rfl

lemma nlToBrList_id (l : List Char) (h : ∀ c ∈ l, c ≠ '\n') :
    nlToBrList l = String.mk l := by
  induction l with
  | nil => rfl
  | cons c cs ih =>
      have hc : c ≠ '\n' := h c (List.mem_cons_self c cs)
      have : nlToBrList cs = String.mk cs := ih fun d hd => h d (List.mem_cons_of_mem c hd)
      simp [nlToBrList, hc, this, String.singleton]
      rfl

lemma nlToBr_id (m : String) (h : ∀ c ∈ m.data, c ≠ '\n') : nlToBr m = m := by
  have := nlToBrList_id m.data h
  simpa [nlToBr] using this

lemma hitLimiter_count_le (m : Nat) (st : Option LimiterState) (now : Nat)
    (h : (hitLimiter m st now).2 = true) : (hitLimiter m st now).1.count ≤ m := by
  simp only [hitLimiter, decide_eq_true_eq] at h ⊢
  exact h

/-- A hit always changes the bucket: the window of 15 minutes is positive,
so the updated bucket is never the one the key had before. -/
lemma hitLimiter_changes (m : Nat) (st : Option LimiterState) (now : Nat) :
    st ≠ some (hitLimiter m st now).1 := by
  match st with
  | none => simp
  | some s =>
      obtain ⟨cnt, ws⟩ := s
      by_cases h : ws + windowMs ≤ now
      · simp only [hitLimiter, h, if_true, ne_eq, Option.some.injEq,
          LimiterState.mk.injEq]
        rintro ⟨h1, h2⟩
        subst h2
        simp [windowMs] at h
      · simp only [hitLimiter, h, if_false, ne_eq, Option.some.injEq,
          LimiterState.mk.injEq]
        rintro ⟨h1, h2⟩
        omega

/-! ## Claims -/

/-- C1: for every valid submission, if the admin notification send throws
(with any error message `e`), the contact handler returns the failure
result — success=false with HTTP status 500 — whose message is the fixed
generic delivery-failure literal, independent of `e` and of the
acknowledgment outcome `ae`. -/
theorem C1_notification_failure_generic :
    ∀ (env : Env) (b : RawBody) (t₁ t₂ e : String) (ae : Option String),
      validateBody b = [] → transportMode env ≠ TransportMode.NONE →
      (contactHandler env b t₁ t₂ (some e) ae).1 = failureResponse ∧
      failureResponse =
        HttpResponse.json 500 false
          "Failed to send message. Please try again later." [] := by
  intro env b t₁ t₂ e ae hv hm
  refine ⟨?_, rfl⟩
  by_cases hs : usingSMTP env = true
  · simp [contactHandler, hv, hs]
  · by_cases hr : truthy env.resendApiKey = true
    · simp [contactHandler, hv, hs, hr]
    · exact absurd (by simp [transportMode, hs, hr]) hm

/-- Witness for C1 at a concrete SMTP configuration, a concrete valid body
and a concrete thrown error. -/
theorem C1_witness :
    (contactHandler ⟨some "smtp.example.com", some "user", some "pw", none, none, none⟩
        ⟨"Jo", "jo@example.com", "Hi", "Hello there"⟩ "t1" "t2"
        (some "connection refused") none).1 = failureResponse :=
  (C1_notification_failure_generic
    ⟨some "smtp.example.com", some "user", some "pw", none, none, none⟩
    ⟨"Jo", "jo@example.com", "Hi", "Hello there"⟩ "t1" "t2"
    "connection refused" none (by decide) (by decide)).1

/-- C2: transport selection is the fixed-priority function of the two
startup flags — full SMTP credentials give mode SMTP (regardless of any
third-party key, and both the notification and the acknowledgment then go
through SMTP), else a third-party key gives mode THIRD_PARTY in which a
valid submission produces exactly one notification send and zero
acknowledgment sends, else mode NONE. -/
theorem C2_transport_selection :
    (∀ env : Env, usingSMTP env = true → transportMode env = TransportMode.SMTP) ∧
    (∀ env : Env, usingSMTP env = false → truthy env.resendApiKey = true →
      transportMode env = TransportMode.THIRD_PARTY) ∧
    (∀ env : Env, usingSMTP env = false → truthy env.resendApiKey = false →
      transportMode env = TransportMode.NONE) ∧
    (∀ (env : Env) (b : RawBody) (t₁ t₂ : String) (ae : Option String),
      usingSMTP env = true → validateBody b = [] →
      (contactHandler env b t₁ t₂ none ae).2.map
          (fun c => (c.transport, c.kind)) =
        [(Transport.smtp, SendKind.notification),
         (Transport.smtp, SendKind.acknowledgment)]) ∧
    (∀ (env : Env) (b : RawBody) (t₁ t₂ : String) (ne ae : Option String),
      usingSMTP env = false → truthy env.resendApiKey = true →
      validateBody b = [] →
      (contactHandler env b t₁ t₂ ne ae).2.map
          (fun c => (c.transport, c.kind)) =
        [(Transport.resendApi, SendKind.notification)]) := by
  refine ⟨?_, ?_, ?_, ?_, ?_⟩
  · intro env hs; simp [transportMode, hs]
  · intro env hs hr; simp [transportMode, hs, hr]
  · intro env hs hr; simp [transportMode, hs, hr]
  · intro env b t₁ t₂ ae hs hv
    simp [contactHandler, hv, hs]
  · intro env b t₁ t₂ ne ae hs hr hv
    cases ne <;> simp [contactHandler, hv, hs, hr]

/-- Witness for C2 at a concrete configuration holding only a third-party
API key and a concrete valid body. -/
theorem C2_witness :
    transportMode ⟨none, none, none, some "re_key", none, none⟩ =
      TransportMode.THIRD_PARTY ∧
    (contactHandler ⟨none, none, none, some "re_key", none, none⟩
        ⟨"Jo", "jo@example.com", "Hi", "Hello there"⟩ "t1" "t2" none none).2.map
        (fun c => (c.transport, c.kind)) =
      [(Transport.resendApi, SendKind.notification)] :=
  ⟨C2_transport_selection.2.1 ⟨none, none, none, some "re_key", none, none⟩
      (by decide) (by decide),
   C2_transport_selection.2.2.2.2 ⟨none, none, none, some "re_key", none, none⟩
      ⟨"Jo", "jo@example.com", "Hi", "Hello there"⟩ "t1" "t2" none none
      (by decide) (by decide) (by decide)⟩

/-- C3: in SMTP mode, when the notification send succeeds, the handler
returns the success result, the result is literally independent of the
acknowledgment outcome `ae` (the inner try/catch swallows the error), and
the acknowledgment send is still attempted after the notification. -/
theorem C3_ack_best_effort :
    ∀ (env : Env) (b : RawBody) (t₁ t₂ : String) (ae : Option String),
      usingSMTP env = true → validateBody b = [] →
      (contactHandler env b t₁ t₂ none ae).1 = successResponse ∧
      contactHandler env b t₁ t₂ none ae = contactHandler env b t₁ t₂ none none ∧
      (contactHandler env b t₁ t₂ none ae).2.map SendCall.kind =
        [SendKind.notification, SendKind.acknowledgment] := by
  intro env b t₁ t₂ ae hs hv
  refine ⟨?_, rfl, ?_⟩ <;> simp [contactHandler, hv, hs]

/-- Witness for C3 at a concrete SMTP configuration, valid body and a
failing acknowledgment send. -/
theorem C3_witness :
    (contactHandler ⟨some "smtp.example.com", some "user", some "pw", none, none, none⟩
        ⟨"Jo", "jo@example.com", "Hi", "Hello there"⟩ "t1" "t2" none
        (some "mailbox unavailable")).1 = successResponse :=
  (C3_ack_best_effort
    ⟨some "smtp.example.com", some "user", some "pw", none, none, none⟩
    ⟨"Jo", "jo@example.com", "Hi", "Hello there"⟩ "t1" "t2"
    (some "mailbox unavailable") (by decide) (by decide)).1

/-- C8: with neither SMTP credentials nor a third-party key configured, a
valid submission performs zero sends and still yields the success-shaped
response (success=true, HTTP 200). -/
theorem C8_no_transport_success :
    ∀ (env : Env) (b : RawBody) (t₁ t₂ : String) (ne ae : Option String),
      transportMode env = TransportMode.NONE → validateBody b = [] →
      contactHandler env b t₁ t₂ ne ae = (successResponse, []) ∧
      successResponse =
        HttpResponse.json 200 true
          "Message received! I\x27ll get back to you soon." [] := by
  intro env b t₁ t₂ ne ae hm hv
  refine ⟨?_, rfl⟩
  by_cases hs : usingSMTP env = true
  · simp [transportMode, hs] at hm
  · by_cases hr : truthy env.resendApiKey = true
    · simp [transportMode, hs, hr] at hm
    · simp [contactHandler, hv, hs, hr]

/-- Witness for C8 at the empty configuration and a concrete valid body. -/
theorem C8_witness :
    contactHandler ⟨none, none, none, none, none, none⟩
        ⟨"Jo", "jo@example.com", "Hi", "Hello there"⟩ "t1" "t2" none none =
      (successResponse, []) :=
  (C8_no_transport_success ⟨none, none, none, none, none, none⟩
    ⟨"Jo", "jo@example.com", "Hi", "Hello there"⟩ "t1" "t2" none none
    (by decide) (by decide)).1

/-- C9: rendering is deterministic — the two document bodies and the two
subject lines are pure functions of the Submission, the formatted timestamp
and the configured recipient address, so rendering the same inputs twice
yields byte-identical strings. -/
theorem C9_render_deterministic :
    ∀ (s₁ s₂ : Submission) (n₁ n₂ t₁ t₂ u₁ u₂ : String),
      s₁ = s₂ → n₁ = n₂ → t₁ = t₂ → u₁ = u₂ →
      mainEmailHtml s₁ t₁ = mainEmailHtml s₂ t₂ ∧
      autoReplyHtml s₁ n₁ u₁ = autoReplyHtml s₂ n₂ u₂ ∧
      notificationSubject s₁ = notificationSubject s₂ ∧
      acknowledgmentSubject s₁ = acknowledgmentSubject s₂ := by
  intro s₁ s₂ n₁ n₂ t₁ t₂ u₁ u₂ hs hn ht hu
  subst hs; subst hn; subst ht; subst hu
  exact ⟨rfl, rfl, rfl, rfl⟩

/-- Witness for C9: two renders of one concrete submission, timestamp and
recipient coincide. -/
theorem C9_witness :
    mainEmailHtml ⟨"Jo", "jo@example.com", "Hi", "Hello there"⟩ "ts" =
      mainEmailHtml ⟨"Jo", "jo@example.com", "Hi", "Hello there"⟩ "ts" ∧
    autoReplyHtml ⟨"Jo", "jo@example.com", "Hi", "Hello there"⟩ "owner" "ts" =
      autoReplyHtml ⟨"Jo", "jo@example.com", "Hi", "Hello there"⟩ "owner" "ts" ∧
    notificationSubject ⟨"Jo", "jo@example.com", "Hi", "Hello there"⟩ =
      notificationSubject ⟨"Jo", "jo@example.com", "Hi", "Hello there"⟩ ∧
    acknowledgmentSubject ⟨"Jo", "jo@example.com", "Hi", "Hello there"⟩ =
      acknowledgmentSubject ⟨"Jo", "jo@example.com", "Hi", "Hello there"⟩ :=
  C9_render_deterministic _ _ _ _ _ _ _ _ rfl rfl rfl rfl

/-- C6: the validator accepts a raw body iff the trimmed name has 2–50
characters, the trimmed subject 2–100, the trimmed message 5–1000, and the
email is syntactically valid; the accepted email is normalized to
lowercase; and on any validation failure the handler returns the 400
validation-failure response carrying the (non-empty) field-level error
list. -/
theorem C6_validator_iff :
    ∀ b : RawBody,
      (validateBody b = [] ↔
        ((2 ≤ (jsTrim b.name).length ∧ (jsTrim b.name).length ≤ 50) ∧
         isEmail b.email = true ∧
         (2 ≤ (jsTrim b.subject).length ∧ (jsTrim b.subject).length ≤ 100) ∧
         (5 ≤ (jsTrim b.message).length ∧ (jsTrim b.message).length ≤ 1000))) ∧
      (mkSubmission b).email = b.email.toLower ∧
      (validateBody b ≠ [] →
        ∀ (env : Env) (t₁ t₂ : String) (ne ae : Option String),
          contactHandler env b t₁ t₂ ne ae =
            (HttpResponse.json 400 false "Validation failed" (validateBody b),
              [])) := by
  intro b
  refine ⟨?_, rfl, ?_⟩
  · cases h1 : nameOk b.name <;> cases h2 : isEmail b.email <;>
      cases h3 : subjectOk b.subject <;> cases h4 : messageOk b.message <;>
        simp_all [validateBody, nameOk, subjectOk, messageOk]
  · intro hv env t₁ t₂ ne ae
    simp [contactHandler, hv]

/-- Witness for C6: a concrete well-formed body is accepted with its email
lowercased, and a concrete malformed body (name too short) is rejected with
the 400 response and a non-empty error list. -/
theorem C6_witness :
    (validateBody ⟨"Jo", "JO@Example.com", "Hi", "Hello there"⟩ = []) ∧
    (mkSubmission ⟨"Jo", "JO@Example.com", "Hi", "Hello there"⟩).email =
      ("JO@Example.com" : String).toLower ∧
    validateBody ⟨"J", "jo@example.com", "Hi", "Hello there"⟩ ≠ [] ∧
    contactHandler ⟨none, none, none, none, none, none⟩
        ⟨"J", "jo@example.com", "Hi", "Hello there"⟩ "t1" "t2" none none =
      (HttpResponse.json 400 false "Validation failed"
        (validateBody ⟨"J", "jo@example.com", "Hi", "Hello there"⟩), []) :=
  ⟨(C6_validator_iff ⟨"Jo", "JO@Example.com", "Hi", "Hello there"⟩).1.mpr
      (by decide),
   (C6_validator_iff ⟨"Jo", "JO@Example.com", "Hi", "Hello there"⟩).2.1,
   by decide,
   (C6_validator_iff ⟨"J", "jo@example.com", "Hi", "Hello there"⟩).2.2
      (by decide) ⟨none, none, none, none, none, none⟩ "t1" "t2" none none⟩

/-- C4 (as stated) is false on the code: the contact limiter is the first
middleware of the route, so a malformed submission from a fresh client key
is rejected with the validation failure and causes no send, yet the contact
rate-limiter bucket for that key changes from empty to one counted hit. -/
theorem C4_counterexample :
    (processContact ⟨none, none, none, none, none, none⟩ ⟨none, none⟩ 0
        ⟨"x", "a@b.com", "Hello", "Hello there"⟩ "t1" "t2" none none).1.contact =
      some ⟨1, 0⟩ ∧
    (⟨none, none⟩ : ClientState).contact = none ∧
    (processContact ⟨none, none, none, none, none, none⟩ ⟨none, none⟩ 0
        ⟨"x", "a@b.com", "Hello", "Hello there"⟩ "t1" "t2" none none).2.1 =
      HttpResponse.json 400 false "Validation failed"
        [⟨"name", "Name must be between 2 and 50 characters"⟩] ∧
    (processContact ⟨none, none, none, none, none, none⟩ ⟨none, none⟩ 0
        ⟨"x", "a@b.com", "Hello", "Hello there"⟩ "t1" "t2" none none).2.2 =
      [] := by
  decide

/-- C4 (amended): a malformed submission is rejected with the field-scoped
validation failure before any network side effect — zero send attempts —
but not before rate-limit side effects: both limiters count the request
first, so the contact bucket of the client key is always changed by the
request. -/
theorem C4_reject_before_network_not_rate_limit :
    ∀ (env : Env) (st : ClientState) (now : Nat) (b : RawBody)
      (t₁ t₂ : String) (ne ae : Option String) (a c : LimiterState),
      hitLimiter 100 st.api now = (a, true) →
      hitLimiter 5 st.contact now = (c, true) →
      validateBody b ≠ [] →
      processContact env st now b t₁ t₂ ne ae =
        ({ api := some a, contact := some c },
          HttpResponse.json 400 false "Validation failed" (validateBody b),
          []) ∧
      st.contact ≠ some c := by
  intro env st now b t₁ t₂ ne ae a c ha hc hv
  constructor
  · simp [processContact, ha, hc, contactHandler, hv]
  · have := hitLimiter_changes 5 st.contact now
    rw [hc] at this
    exact this

/-- Witness for the amended C4 theorem at a fresh client key and a concrete
malformed body. -/
theorem C4_witness :
    processContact ⟨none, none, none, none, none, none⟩ ⟨none, none⟩ 0
        ⟨"x", "jo@example.com", "Hi", "Hello there"⟩ "t1" "t2" none none =
      ({ api := some ⟨1, 0⟩, contact := some ⟨1, 0⟩ },
        HttpResponse.json 400 false "Validation failed"
          (validateBody ⟨"x", "jo@example.com", "Hi", "Hello there"⟩),
        []) ∧
    (⟨none, none⟩ : ClientState).contact ≠ some ⟨1, 0⟩ :=
  C4_reject_before_network_not_rate_limit
    ⟨none, none, none, none, none, none⟩ ⟨none, none⟩ 0
    ⟨"x", "jo@example.com", "Hi", "Hello there"⟩ "t1" "t2" none none
    ⟨1, 0⟩ ⟨1, 0⟩ (by decide) (by decide) (by decide)

/-- C5: the broad limiter lets at most 100 requests of a key through per
15-minute window on any `/api/` route; a contact request reaches the
handler only when both limiters pass, in which case the counted hits of the key
are within 100 and 5 respectively; and the 6th in-window contact submission
of a key (bucket already at 5 hits) is answered with the contact
rate-limit failure and performs zero sends. -/
theorem C5_rate_limits :
    (∀ (st : ClientState) (now : Nat), (processOtherApi st now).2 = true →
      ∃ a, (processOtherApi st now).1.api = some a ∧ a.count ≤ 100) ∧
    (∀ (env : Env) (st : ClientState) (now : Nat) (b : RawBody)
       (t₁ t₂ : String) (ne ae : Option String),
      (∀ m, (processContact env st now b t₁ t₂ ne ae).2.1 ≠
        HttpResponse.rateLimited m) →
      ∃ a c, (processContact env st now b t₁ t₂ ne ae).1.api = some a ∧
        (processContact env st now b t₁ t₂ ne ae).1.contact = some c ∧
        a.count ≤ 100 ∧ c.count ≤ 5) ∧
    (∀ (env : Env) (st : ClientState) (now : Nat) (b : RawBody)
       (t₁ t₂ : String) (ne ae : Option String) (c : LimiterState),
      st.contact = some c → c.count = 5 → now < c.windowStart + windowMs →
      (hitLimiter 100 st.api now).2 = true →
      (processContact env st now b t₁ t₂ ne ae).2.1 =
        HttpResponse.rateLimited contactLimitMsg ∧
      (processContact env st now b t₁ t₂ ne ae).2.2 = []) := by
  refine ⟨?_, ?_, ?_⟩
  · intro st now h
    refine ⟨(hitLimiter 100 st.api now).1, ?_, ?_⟩
    · simp [processOtherApi]
    · exact hitLimiter_count_le 100 st.api now (by simpa [processOtherApi] using h)
  · intro env st now b t₁ t₂ ne ae hne
    by_cases ha : (hitLimiter 100 st.api now).2 = true
    · by_cases hc : (hitLimiter 5 st.contact now).2 = true
      · refine ⟨(hitLimiter 100 st.api now).1, (hitLimiter 5 st.contact now).1,
          ?_, ?_, hitLimiter_count_le 100 st.api now ha,
          hitLimiter_count_le 5 st.contact now hc⟩ <;>
          simp [processContact, ha, hc]
      · exact absurd (by simp [processContact, ha, hc]) (hne contactLimitMsg)
    · exact absurd (by simp [processContact, ha]) (hne apiLimitMsg)
  · intro env st now b t₁ t₂ ne ae c hst hcount hwin ha
    have hfail : (hitLimiter 5 st.contact now).2 = false := by
      simp [hitLimiter, hst, Nat.not_le.mpr hwin, hcount]
    constructor <;> simp [processContact, ha, hfail]

/-- Witness for C5: with a concrete bucket already holding 5 in-window
contact hits, the 6th submission gets the contact rate-limit message and
no sends. -/
theorem C5_witness :
    (processContact ⟨none, none, none, none, none, none⟩
        ⟨some ⟨5, 0⟩, some ⟨5, 0⟩⟩ 1
        ⟨"Jo", "jo@example.com", "Hi", "Hello there"⟩ "t1" "t2" none none).2.1 =
      HttpResponse.rateLimited contactLimitMsg ∧
    (processContact ⟨none, none, none, none, none, none⟩
        ⟨some ⟨5, 0⟩, some ⟨5, 0⟩⟩ 1
        ⟨"Jo", "jo@example.com", "Hi", "Hello there"⟩ "t1" "t2" none none).2.2 =
      [] :=
  C5_rate_limits.2.2 ⟨none, none, none, none, none, none⟩
    ⟨some ⟨5, 0⟩, some ⟨5, 0⟩⟩ 1
    ⟨"Jo", "jo@example.com", "Hi", "Hello there"⟩ "t1" "t2" none none
    ⟨5, 0⟩ rfl rfl (by decide) (by decide)

/-- A submission whose message is an HTML script element. -/
def demoScript : Submission :=
  ⟨"Jo", "jo@example.com", "Hi", "<script>alert(1)</script>"⟩

/-- C7 (as stated) is false on the code: the renderer applies no escaping,
so a message consisting of an HTML script element appears verbatim
(unescaped, hence interpreted as markup) in both rendered documents. -/
theorem C7_counterexample :
    AppearsIn "<script>alert(1)</script>" (mainEmailHtml demoScript "ts") ∧
    AppearsIn "<script>alert(1)</script>"
      (autoReplyHtml demoScript "owner@example.com" "ts") := by
  have e : nlToBr demoScript.message = "<script>alert(1)</script>" := by decide
  constructor
  · rw [← e]
    exact appears_message demoScript "ts"
  · rw [← e]
    exact autoReply_appears_message demoScript "owner@example.com" "ts"

/-- C7 (amended): the renderer preserves every line break of the message as
an explicit `<br>` marker, but performs no other neutralization — a
message without newlines is embedded entirely unchanged, and the (possibly
markup-bearing) result is interpolated verbatim into both documents. -/
theorem C7_line_breaks_no_escaping :
    (∀ a b : String, nlToBr (a ++ "\n" ++ b) = nlToBr a ++ "<br>" ++ nlToBr b) ∧
    (∀ m : String, (∀ c ∈ m.data, c ≠ '\n') → nlToBr m = m) ∧
    (∀ (s : Submission) (ts : String),
      AppearsIn (nlToBr s.message) (mainEmailHtml s ts)) ∧
    (∀ (s : Submission) (n ts : String),
      AppearsIn (nlToBr s.message) (autoReplyHtml s n ts)) :=
  ⟨nlToBr_newline_split, nlToBr_id, appears_message, autoReply_appears_message⟩

/-- Witness for the amended C7 theorem on concrete strings: a newline becomes
a `<br>` marker and newline-free text is unchanged. -/
theorem C7_witness :
    nlToBr ("line1" ++ "\n" ++ "line2") = nlToBr "line1" ++ "<br>" ++ nlToBr "line2" ∧
    nlToBr "plain text" = "plain text" :=
  ⟨C7_line_breaks_no_escaping.1 "line1" "line2",
   C7_line_breaks_no_escaping.2.1 "plain text" (by decide)⟩

/-- A submission whose name carries HTML markup and whose message spans two
lines. -/
def demoMarkup : Submission :=
  ⟨"<b>BOLD</b>", "jo@example.com", "Hi", "line1\nline2"⟩

/-- C10: both documents are the verbatim concatenation of their static
chunks with the unescaped name, email and subject and with the message sent
through only the newline-to-`<br>` substitution; in particular markup in a
field appears verbatim in the rendered notification, and the two-line
message appears with its newline turned into `<br>` and every other
character unchanged. -/
theorem C10_verbatim_interpolation :
    (∀ (s : Submission) (ts : String),
      mainEmailHtml s ts =
        mainChunk0 ++ s.name ++ mainChunk1 ++ s.email ++ mainChunk2 ++ s.email ++
          mainChunk3 ++ s.subject ++ mainChunk4 ++ nlToBr s.message ++
          mainChunk5 ++ ts ++ mainChunk6) ∧
    (∀ (s : Submission) (n ts : String),
      autoReplyHtml s n ts =
        autoChunk0 ++ s.subject ++ autoChunk1 ++ ts ++ autoChunk2 ++
          nlToBr s.message ++ autoChunk3 ++ n ++ autoChunk4 ++ n ++ autoChunk5) ∧
    (∀ a b : String, nlToBr (a ++ "\n" ++ b) = nlToBr a ++ "<br>" ++ nlToBr b) ∧
    nlToBr demoMarkup.message = "line1<br>line2" ∧
    AppearsIn "<b>BOLD</b>" (mainEmailHtml demoMarkup "ts") ∧
    AppearsIn "line1<br>line2" (mainEmailHtml demoMarkup "ts") := by
  refine ⟨mainEmailHtml_decomp, autoReplyHtml_decomp, nlToBr_newline_split,
    by decide, ?_, ?_⟩
  · exact appears_name demoMarkup "ts"
  · have e : nlToBr demoMarkup.message = "line1<br>line2" := by decide
    rw [← e]
    exact appears_message demoMarkup "ts"
